import Mathlib

/-!
Shallow embedding of `scripts/snapshots.ts` (snapshot publisher of the
angular-cli monorepo).  External commands, filesystem writes and log calls
are recorded as an explicit trace of attempted effects; the outcomes of the
fallible external operations (spawned git commands, filesystem operations)
are supplied by explicit "world" records so that every control-flow path of
the script is a computable function of its inputs.
-/

/-- `PackageInfo` from `lib/packages` (only the attributes the script reads). -/
structure PackageInfo where
  name : String
  dist : String
  snapshot : Bool
  snapshotRepo : String
  snapshotHash : String
deriving DecidableEq, Repr

/-- The `SnapshotsOptions` interface (lines 131-135).  Optional string fields
become `Option String`; `force?` is only ever read through JS truthiness
(`!opts.force`), so `none`/`false` coincide and a `Bool` suffices. -/
structure SnapshotsOptions where
  force : Bool
  githubToken : Option String
  branch : Option String
deriving DecidableEq, Repr

/-- The two environment variables the script consumes.  `none` models an
unset variable (in Node, `typeof process.env[k] == 'string'` is false). -/
structure Env where
  circleBranch : Option String
  snapshotBuildsGithubToken : Option String
deriving DecidableEq, Repr

/-- One attempted observable operation of the script.  `execCmd` is a
`spawnSync` through `_exec` (cwd `""` means the inherited process cwd),
`shellCmd` an `execSync` of a shell string, `copyDir` the recursive `_copy`,
`writeFile` an `fs.writeFileSync`, and the remaining constructors record the
logger calls and the opaque external collaborator steps of the entry point. -/
inductive Effect where
  | execCmd (cmd : String) (args : List String) (cwd : String)
  | shellCmd (cmd : String)
  | copyDir (src : String) (dst : String)
  | writeFile (path : String) (content : String)
  | mkTempDir (pat : String)
  | chdir (dir : String)
  | logError (msg : String)
  | logWarn (msg : String)
  | logInfo (msg : String)
  | logDebug (msg : String)
  | createTempProject
  | buildStep
  | jsonHelpStep
deriving DecidableEq, Repr

/-- JS `a || b` on an optional string: `undefined` and `""` are falsy. -/
def jsOr (a : Option String) (b : String) : String :=
  match a with
  | none => b
  | some s => if s = "" then b else s

/-- Branch resolution, lines 146-151: `let branch = opts.branch || 'main';`
then, whenever `CIRCLE_BRANCH` is set (`typeof ... == 'string'`, true even
for the empty string), `branch = '' + process.env['CIRCLE_BRANCH']`. -/
def resolveBranch (opts : SnapshotsOptions) (env : Env) : String :=
  let branch := jsOr opts.branch "main"
  match env.circleBranch with
  | some cb => cb
  | none => branch

/-- JS `String.prototype.trim()`: remove leading and trailing whitespace
(structurally recursive over the character list, so it evaluates in the
kernel). -/
def strTrim (s : String) : String :=
  String.mk (((s.data.dropWhile Char.isWhitespace).reverse.dropWhile
    Char.isWhitespace).reverse)

/-- Credential resolution, line 153:
`(opts.githubToken || process.env.SNAPSHOT_BUILDS_GITHUB_TOKEN || '').trim()`. -/
def resolveToken (opts : SnapshotsOptions) (env : Env) : String :=
  strTrim (jsOr opts.githubToken (jsOr env.snapshotBuildsGithubToken ""))

/-- `JSON.stringify` of one character of an ordinary string (quote and
backslash escaped; the script never logs control characters). -/
def jsEscapeChar (c : Char) : String :=
  if c = '\\' then "\\\\" else if c = '"' then "\\\"" else String.singleton c

/-- `JSON.stringify` of an ordinary string. -/
def jsonStr (s : String) : String :=
  "\"" ++ String.join (s.data.map jsEscapeChar) ++ "\""

/-- The error line `_exec` logs when a spawned command exits non-zero
(line 59). -/
def cmdFailedMessage (cmd : String) (args : List String) : String :=
  "Command failed: " ++ cmd ++ " " ++ String.intercalate ", " (args.map jsonStr)

/-- `path.basename` on the slash-separated repo identifiers used here. -/
def baseName (s : String) : String :=
  ((s.splitOn "/").getLast?).getD s

/-- `path.join(root, path.basename(pkg.snapshotRepo))`, line 86. -/
def destPath (root repo : String) : String :=
  root ++ "/" ++ baseName repo

/-- The clone URL of line 85: the token and a `@` are embedded only when the
token is truthy. -/
def cloneUrl (githubToken repo : String) : String :=
  "https://" ++ (if githubToken = "" then "" else githubToken ++ "@") ++
    "github.com/" ++ repo ++ ".git"

/-- The markdown header `readmeHeaderFn` (lines 19-35). -/
def readmeHeaderFn (pkg : PackageInfo) : String :=
  "\n# Snapshot build of " ++ pkg.name ++
  "\n\nThis repository is a snapshot of a commit on the original repository. The original code used to\ngenerate this is located at http://github.com/angular/angular-cli.\n\nWe do not accept PRs or Issues opened on this repository. You should not use this over a tested and\nreleased version of this package.\n\nTo test this snapshot in your own project, use\n\n```bash\nnpm install git+https://github.com/" ++
  pkg.snapshotRepo ++ ".git\n```\n\n----\n"

/-- Lines 112-115: the new README content is the header followed by the
previous file content when the read succeeds, or the header alone when the
read throws (`catch` is empty). -/
def readmeContent (pkg : PackageInfo) (existing : Option String) : String :=
  readmeHeaderFn pkg ++ existing.getD ""

/-- One step of the per-package sequence: the attempted effect, the error
line logged on failure (`_exec` steps log, raw filesystem steps do not),
whether the external world makes this attempt fail, and whether a failure is
swallowed by a surrounding `try`/`catch`. -/
structure Step where
  eff : Effect
  failLog : Option String
  fails : Bool
  tolerated : Bool
deriving DecidableEq, Repr

/-- The log effects a failing step emits. -/
def failLogEffects (s : Step) : List Effect :=
  match s.failLog with
  | some m => [Effect.logError m]
  | none => []

/-- A `_exec('git', args, \x7b cwd \x7d, logger)` step. -/
def mkCmdStep (args : List String) (cwd : String) (failFlag : Bool) (tol : Bool) : Step :=
  { eff := Effect.execCmd "git" args cwd
    failLog := some (cmdFailedMessage "git" args)
    fails := failFlag
    tolerated := tol }

/-- A raw filesystem step (no command-failure log line on failure). -/
def mkFsStep (e : Effect) (failFlag : Bool) : Step :=
  { eff := e, failLog := none, fails := failFlag, tolerated := false }

/-- Run a sequence of steps: a succeeding step contributes its effect and
execution continues; a failing tolerated step contributes its effect and its
failure log and execution continues; a failing non-tolerated step
contributes its effect and its failure log and execution stops with `false`
(the exception propagates). -/
def runSteps : List Step → List Effect × Bool
  | [] => ([], true)
  | s :: rest =>
    if s.fails then
      if s.tolerated then
        let r := runSteps rest
        (s.eff :: (failLogEffects s ++ r.1), r.2)
      else
        (s.eff :: failLogEffects s, false)
    else
      let r := runSteps rest
      (s.eff :: r.1, r.2)

/-- The outcomes the external world assigns to the fallible operations of
one `_publishSnapshot` call, plus the data it returns (the existing README
content, `none` when the read throws, and the `'' + new Date()` string). -/
structure PubWorld where
  cloneFails : Bool
  checkoutFails : Bool
  checkoutNewFails : Bool
  rmFails : Bool
  copyFails : Bool
  configFails : Bool
  existingReadme : Option String
  readmeWriteFails : Bool
  uniqueWriteFails : Bool
  addFails : Bool
  commitFails : Bool
  tagFails : Bool
  pushFails : Bool
  pushTagsFails : Bool
  now : String
deriving DecidableEq, Repr

/-- Lines 89-96: when a branch name was resolved (JS truthiness, so a
non-empty string), try `git checkout branch`; the failure is caught and
`git checkout -b branch` runs instead, outside any `catch`. -/
def branchSteps (pw : PubWorld) (branch d : String) : List Step :=
  if branch = "" then []
  else
    mkCmdStep ["checkout", branch] d pw.checkoutFails true ::
      (if pw.checkoutFails then
        [mkCmdStep ["checkout", "-b", branch] d pw.checkoutNewFails false]
      else [])

/-- The step list of `_publishSnapshot` after the initial logs, lines
88-128, in source order: clone, the branch block, the tolerated
`git rm -rf ./`, the recursive copy, the gpgSign config (token present
only), the README and `uniqueId` writes, then add, commit, tag and the two
pushes. -/
def pubSteps (pw : PubWorld) (pkg : PackageInfo)
    (branch message githubToken root : String) : List Step :=
  let d := destPath root pkg.snapshotRepo
  (mkCmdStep ["clone", cloneUrl githubToken pkg.snapshotRepo] root pw.cloneFails false ::
    branchSteps pw branch d) ++
  (mkCmdStep ["rm", "-rf", "./"] d pw.rmFails true ::
    mkFsStep (Effect.copyDir pkg.dist d) pw.copyFails ::
    (if githubToken = "" then []
     else [mkCmdStep ["config", "commit.gpgSign", "false"] d pw.configFails false])) ++
  (mkFsStep (Effect.writeFile (d ++ "/README.md")
      (readmeContent pkg pw.existingReadme)) pw.readmeWriteFails ::
    mkFsStep (Effect.writeFile (d ++ "/uniqueId") pw.now) pw.uniqueWriteFails ::
    mkCmdStep ["add", "."] d pw.addFails false ::
    mkCmdStep ["commit", "-a", "-m", message] d pw.commitFails false ::
    mkCmdStep ["tag", pkg.snapshotHash] d pw.tagFails false ::
    mkCmdStep ["push", "origin", branch] d pw.pushFails false ::
    mkCmdStep ["push", "--tags", "origin", branch] d pw.pushTagsFails false :: [])

/-- `_publishSnapshot` (lines 66-129): when `pkg.snapshot` is false only a
warning is logged (lines 73-77); otherwise the info and debug lines are
logged and the step sequence runs.  The boolean is `true` when the call
returns normally and `false` when it throws. -/
def publishSnapshot (pw : PubWorld) (pkg : PackageInfo)
    (branch message githubToken root : String) : List Effect × Bool :=
  if pkg.snapshot = false then
    ([Effect.logWarn ("Skipping " ++ pkg.name ++ ".")], true)
  else
    let r := runSteps (pubSteps pw pkg branch message githubToken root)
    (Effect.logInfo ("Publishing " ++ pkg.name ++ " to repo " ++
        jsonStr pkg.snapshotRepo ++ ".") ::
      Effect.logDebug ("Temporary directory: " ++ root) :: r.1, r.2)

/-- The loop of lines 178-181: for each entry of the static package table in
order, `process.chdir(root)` then `_publishSnapshot`; a throw aborts the
loop (entries after the failing one are not processed). -/
def snapshotsLoop (branch message githubToken root : String) :
    List (PackageInfo × PubWorld) → List Effect × Bool
  | [] => ([], true)
  | (pkg, pw) :: rest =>
    let p := publishSnapshot pw pkg branch message githubToken root
    if p.2 then
      let r := snapshotsLoop branch message githubToken root rest
      (Effect.chdir root :: (p.1 ++ r.1), r.2)
    else
      (Effect.chdir root :: p.1, false)

/-- The fallible outcomes and ambient data of one entry-point invocation:
whether `git status --porcelain` printed anything, the temporary root
`mkdtempSync` returns, the raw `git log` output, and the outcomes of the
three global `git config` calls. -/
structure MainWorld where
  dirty : Bool
  tmpRoot : String
  logMessageRaw : String
  configEmailFails : Bool
  configNameFails : Bool
  configPushFails : Bool
deriving DecidableEq, Repr

/-- Lines 155-160: with a truthy token, log and run the three global
`git config` calls through `_exec`; with no token this block is skipped. -/
def configPart (githubToken : String) (mw : MainWorld) : List Effect × Bool :=
  if githubToken = "" then ([], true)
  else
    let s := runSteps
      [mkCmdStep ["config", "--global", "user.email", "circleci@angular.io"] ""
        mw.configEmailFails false,
       mkCmdStep ["config", "--global", "user.name", "Angular Builds"] ""
        mw.configNameFails false,
       mkCmdStep ["config", "--global", "push.default", "simple"] ""
        mw.configPushFails false]
    (Effect.logInfo "Setting up global git name." :: s.1, s.2)

/-- The unconditional opening effects of the entry point once the dirty-tree
check passed: the status probe (line 139), `mkdtempSync` (line 144) and the
`git log` probe (line 145). -/
def mainOpeningTrace : List Effect :=
  [Effect.shellCmd "git status --porcelain",
   Effect.mkTempDir "angular-cli-publish-",
   Effect.shellCmd "git log --format=\"%h %s\" -n1"]

/-- Lines 164-170: the temporary staging project, the build and the
json-help step (opaque external collaborators, assumed to succeed). -/
def buildPartTrace : List Effect :=
  [Effect.createTempProject, Effect.logInfo "Building...",
   Effect.buildStep, Effect.jsonHelpStep]

/-- Outcome of one entry-point invocation: `process.exit(code)`, an
uncaught throw, or a normal `return code`, each with the trace so far. -/
inductive RunResult where
  | exit (code : Nat) (trace : List Effect)
  | thrown (trace : List Effect)
  | ret (code : Nat) (trace : List Effect)
deriving DecidableEq, Repr

/-- The trace of a run outcome. -/
def RunResult.trace : RunResult → List Effect
  | .exit _ t => t
  | .thrown t => t
  | .ret _ t => t

/-- The entry point (lines 137-184).  The dirty-tree check (139-142) runs
the status probe and, on a truthy output without `force`, logs and calls
`process.exit(1)` before anything else.  Otherwise: temp dir, log probe,
branch and token resolution, the token-guarded global config block, the
staging/build/help steps, the no-token early `return 0` (172-176), and the
per-package loop followed by `return 0`. -/
def snapshots (items : List (PackageInfo × PubWorld)) (opts : SnapshotsOptions)
    (env : Env) (mw : MainWorld) : RunResult :=
  if mw.dirty && !opts.force then
    RunResult.exit 1 [Effect.shellCmd "git status --porcelain",
      Effect.logError "You cannot run snapshots with local changes."]
  else
    let message := strTrim mw.logMessageRaw
    let branch := resolveBranch opts env
    let githubToken := resolveToken opts env
    let c := configPart githubToken mw
    if c.2 = false then
      RunResult.thrown (mainOpeningTrace ++ c.1)
    else if githubToken = "" then
      RunResult.ret 0 (mainOpeningTrace ++ c.1 ++ buildPartTrace ++
        [Effect.logInfo "No token given, skipping actual publishing..."])
    else
      let l := snapshotsLoop branch message githubToken mw.tmpRoot items
      if l.2 then
        RunResult.ret 0 (mainOpeningTrace ++ c.1 ++ buildPartTrace ++ l.1)
      else
        RunResult.thrown (mainOpeningTrace ++ c.1 ++ buildPartTrace ++ l.1)

/-- A per-package world where every fallible operation succeeds. -/
def allOkWorld (readme : Option String) (now : String) : PubWorld :=
  { cloneFails := false, checkoutFails := false, checkoutNewFails := false,
    rmFails := false, copyFails := false, configFails := false,
    existingReadme := readme, readmeWriteFails := false,
    uniqueWriteFails := false, addFails := false, commitFails := false,
    tagFails := false, pushFails := false, pushTagsFails := false,
    now := now }

/-- Whether a trace contains a `Command failed` log line. -/
def hasCmdFailLog (t : List Effect) : Bool :=
  t.any fun e => match e with
    | Effect.logError _ => true
    | _ => false

/-- A sample package (the end-to-end scenario of the specification). -/
def pkg0 : PackageInfo :=
  { name := "core", dist := "./dist/core", snapshot := true,
    snapshotRepo := "org/core-builds", snapshotHash := "abc123" }

/-- The expected effects of the global config block when the three calls
succeed. -/
def configOkTrace : List Effect :=
  [Effect.logInfo "Setting up global git name.",
   Effect.execCmd "git" ["config", "--global", "user.email", "circleci@angular.io"] "",
   Effect.execCmd "git" ["config", "--global", "user.name", "Angular Builds"] "",
   Effect.execCmd "git" ["config", "--global", "push.default", "simple"] ""]

/-- The expected effect sequence of one fully successful `_publishSnapshot`
call with a non-empty branch and a non-empty token. -/
def allOkPubTrace (pkg : PackageInfo) (branch message tok root : String)
    (readme : Option String) (now : String) : List Effect :=
  [Effect.logInfo ("Publishing " ++ pkg.name ++ " to repo " ++
      jsonStr pkg.snapshotRepo ++ "."),
   Effect.logDebug ("Temporary directory: " ++ root),
   Effect.execCmd "git" ["clone", cloneUrl tok pkg.snapshotRepo] root,
   Effect.execCmd "git" ["checkout", branch] (destPath root pkg.snapshotRepo),
   Effect.execCmd "git" ["rm", "-rf", "./"] (destPath root pkg.snapshotRepo),
   Effect.copyDir pkg.dist (destPath root pkg.snapshotRepo),
   Effect.execCmd "git" ["config", "commit.gpgSign", "false"]
     (destPath root pkg.snapshotRepo),
   Effect.writeFile (destPath root pkg.snapshotRepo ++ "/README.md")
     (readmeContent pkg readme),
   Effect.writeFile (destPath root pkg.snapshotRepo ++ "/uniqueId") now,
   Effect.execCmd "git" ["add", "."] (destPath root pkg.snapshotRepo),
   Effect.execCmd "git" ["commit", "-a", "-m", message] (destPath root pkg.snapshotRepo),
   Effect.execCmd "git" ["tag", pkg.snapshotHash] (destPath root pkg.snapshotRepo),
   Effect.execCmd "git" ["push", "origin", branch] (destPath root pkg.snapshotRepo),
   Effect.execCmd "git" ["push", "--tags", "origin", branch]
     (destPath root pkg.snapshotRepo)]

/-- The expected effect sequence of one fully successful `_publishSnapshot`
call when the resolved branch is the empty string (the whole checkout block
is skipped) and the token is non-empty. -/
def allOkPubTraceNoBranch (pkg : PackageInfo) (message tok root : String)
    (readme : Option String) (now : String) : List Effect :=
  [Effect.logInfo ("Publishing " ++ pkg.name ++ " to repo " ++
      jsonStr pkg.snapshotRepo ++ "."),
   Effect.logDebug ("Temporary directory: " ++ root),
   Effect.execCmd "git" ["clone", cloneUrl tok pkg.snapshotRepo] root,
   Effect.execCmd "git" ["rm", "-rf", "./"] (destPath root pkg.snapshotRepo),
   Effect.copyDir pkg.dist (destPath root pkg.snapshotRepo),
   Effect.execCmd "git" ["config", "commit.gpgSign", "false"]
     (destPath root pkg.snapshotRepo),
   Effect.writeFile (destPath root pkg.snapshotRepo ++ "/README.md")
     (readmeContent pkg readme),
   Effect.writeFile (destPath root pkg.snapshotRepo ++ "/uniqueId") now,
   Effect.execCmd "git" ["add", "."] (destPath root pkg.snapshotRepo),
   Effect.execCmd "git" ["commit", "-a", "-m", message] (destPath root pkg.snapshotRepo),
   Effect.execCmd "git" ["tag", pkg.snapshotHash] (destPath root pkg.snapshotRepo),
   Effect.execCmd "git" ["push", "origin", ""] (destPath root pkg.snapshotRepo),
   Effect.execCmd "git" ["push", "--tags", "origin", ""]
     (destPath root pkg.snapshotRepo)]

/-- The skip line of the dry-run path (line 173). -/
def noTokenTrace : List Effect :=
  [Effect.logInfo "No token given, skipping actual publishing..."]

/-- Sample inputs for concrete instantiations. -/
def optsNone : SnapshotsOptions := { force := false, githubToken := none, branch := none }

/-- Sample options with `force` set. -/
def optsForce : SnapshotsOptions := { force := true, githubToken := none, branch := none }

/-- Sample options with a token. -/
def optsTok : SnapshotsOptions := { force := false, githubToken := some "tok", branch := none }

/-- Sample environment with neither variable set. -/
def envNone : Env := { circleBranch := none, snapshotBuildsGithubToken := none }

/-- Sample environment with `CIRCLE_BRANCH` set to the empty string. -/
def envEmptyCircle : Env := { circleBranch := some "", snapshotBuildsGithubToken := none }

/-- Sample clean-tree main world with all config calls succeeding. -/
def mwClean : MainWorld :=
  { dirty := false, tmpRoot := "/tmp/r", logMessageRaw := "abc fix thing",
    configEmailFails := false, configNameFails := false, configPushFails := false }

/-- Sample dirty-tree main world. -/
def mwDirty : MainWorld := { mwClean with dirty := true }

/-- Helper: the full trace and success of `_publishSnapshot` when every
operation succeeds, the package is marked for snapshotting, the branch is
non-empty and the token is non-empty. -/
theorem publishSnapshot_allOk (pkg : PackageInfo) (branch message tok root : String)
    (readme : Option String) (now : String)
    (hs : pkg.snapshot = true) (hb : branch ≠ "") (ht : tok ≠ "") :
    publishSnapshot (allOkWorld readme now) pkg branch message tok root =
      (allOkPubTrace pkg branch message tok root readme now, true) := by
  simp [publishSnapshot, pubSteps, branchSteps, allOkWorld, allOkPubTrace,
    runSteps, mkCmdStep, mkFsStep, failLogEffects, hs, hb, ht]

/-- Helper: the full trace and success of `_publishSnapshot` when every
operation succeeds, the package is marked for snapshotting, the resolved
branch is empty and the token is non-empty. -/
theorem publishSnapshot_allOk_noBranch (pkg : PackageInfo) (message tok root : String)
    (readme : Option String) (now : String)
    (hs : pkg.snapshot = true) (ht : tok ≠ "") :
    publishSnapshot (allOkWorld readme now) pkg "" message tok root =
      (allOkPubTraceNoBranch pkg message tok root readme now, true) := by
  simp [publishSnapshot, pubSteps, branchSteps, allOkWorld, allOkPubTraceNoBranch,
    runSteps, mkCmdStep, mkFsStep, failLogEffects, hs, ht]

/-- Helper: with an empty resolved token, a run that passes the dirty-tree
check performs exactly the probes, the staging/build/help steps and the
skip log, and returns 0. -/
theorem snapshots_dryRun (items : List (PackageInfo × PubWorld))
    (opts : SnapshotsOptions) (env : Env) (mw : MainWorld)
    (hd : (mw.dirty && !opts.force) = false)
    (ht : resolveToken opts env = "") :
    snapshots items opts env mw =
      RunResult.ret 0 (mainOpeningTrace ++ buildPartTrace ++ noTokenTrace) := by
  simp [snapshots, hd, ht, configPart, noTokenTrace]

/-- Helper: a run that passes the dirty-tree check never calls
`process.exit` and always creates the temporary directory. -/
theorem snapshots_no_exit (items : List (PackageInfo × PubWorld))
    (opts : SnapshotsOptions) (env : Env) (mw : MainWorld)
    (hd : (mw.dirty && !opts.force) = false) :
    (∀ c t, snapshots items opts env mw ≠ RunResult.exit c t) ∧
      Effect.mkTempDir "angular-cli-publish-" ∈ (snapshots items opts env mw).trace := by
  by_cases h2 : resolveToken opts env = ""
  · constructor
    · intro c t
      simp [snapshots, hd, h2, configPart]
    · simp [snapshots, hd, h2, configPart, RunResult.trace, mainOpeningTrace]
  · by_cases h1 : (configPart (resolveToken opts env) mw).2 = false <;>
    by_cases h3 : (snapshotsLoop (resolveBranch opts env) (strTrim mw.logMessageRaw)
        (resolveToken opts env) mw.tmpRoot items).2 = true <;>
    constructor <;>
    first
      | (intro c t; simp [snapshots, hd, h1, h2, h3])
      | simp [snapshots, hd, h1, h2, h3, RunResult.trace, mainOpeningTrace]

/-- C1 counterexample: with an explicit `branch` option `"feature"` and the
CI branch variable set to `"ci-branch"`, the resolved branch is
`"ci-branch"`, not the explicit option — the CI value overrides the option,
so the claimed precedence (option first) is false on the code. -/
theorem c1_counterexample :
    resolveBranch { force := false, githubToken := none, branch := some "feature" }
        { circleBranch := some "ci-branch", snapshotBuildsGithubToken := none } =
      "ci-branch" ∧ ("ci-branch" : String) ≠ "feature" := by
  constructor
  · rfl
  · decide

/-- C1 (amended): branch resolution precedence as the code implements it —
the CI-provided branch environment value, whenever the variable is set,
overrides everything; only when it is unset is the explicit non-empty
`branch` option used; only when that is also absent (or empty) is the
literal default `"main"` used. -/
theorem c1_branch_precedence (opts : SnapshotsOptions) (env : Env) :
    (∀ cb, env.circleBranch = some cb → resolveBranch opts env = cb) ∧
    (env.circleBranch = none → ∀ b, opts.branch = some b → b ≠ "" →
      resolveBranch opts env = b) ∧
    (env.circleBranch = none → (opts.branch = none ∨ opts.branch = some "") →
      resolveBranch opts env = "main") := by
  refine ⟨?_, ?_, ?_⟩
  · intro cb h
    simp [resolveBranch, h]
  · intro hn b hb hne
    simp [resolveBranch, jsOr, hn, hb, hne]
  · intro hn ho
    rcases ho with h | h <;> simp [resolveBranch, jsOr, hn, h]

/-- C1 witness: each clause of the precedence at a concrete input. -/
theorem c1_branch_precedence_witness :
    resolveBranch optsNone { circleBranch := some "ci", snapshotBuildsGithubToken := none } = "ci" ∧
    resolveBranch { force := false, githubToken := none, branch := some "dev" } envNone = "dev" ∧
    resolveBranch optsNone envNone = "main" :=
  ⟨(c1_branch_precedence optsNone
      { circleBranch := some "ci", snapshotBuildsGithubToken := none }).1 "ci" rfl,
   (c1_branch_precedence { force := false, githubToken := none, branch := some "dev" }
      envNone).2.1 rfl "dev" rfl (by decide),
   (c1_branch_precedence optsNone envNone).2.2 rfl (Or.inl rfl)⟩

/-- C9 counterexample: with the explicit token option `" "` (non-empty) and
the environment token `"envtok"`, the resolved credential is `""` — neither
the non-empty option nor the environment token as the claim requires — so
the whitespace-only option selects the dry-run path despite an available
environment token. -/
theorem c9_counterexample :
    resolveToken { force := false, githubToken := some " ", branch := none }
        { circleBranch := none, snapshotBuildsGithubToken := some "envtok" } = "" ∧
      (" " : String) ≠ "" ∧ ("envtok" : String) ≠ "" := by
  refine ⟨by decide, by decide, by decide⟩

/-- C9 (amended): credential resolution as the code implements it — the
explicit token option when non-empty, otherwise the environment token when
set and non-empty, otherwise the empty string, with the selected value then
trimmed of surrounding whitespace; an empty resolution selects the dry-run
(no publish) path. -/
theorem c9_token_precedence (opts : SnapshotsOptions) (env : Env) :
    (∀ s, opts.githubToken = some s → s ≠ "" → resolveToken opts env = strTrim s) ∧
    ((opts.githubToken = none ∨ opts.githubToken = some "") →
      ∀ t, env.snapshotBuildsGithubToken = some t → t ≠ "" →
        resolveToken opts env = strTrim t) ∧
    ((opts.githubToken = none ∨ opts.githubToken = some "") →
      (env.snapshotBuildsGithubToken = none ∨ env.snapshotBuildsGithubToken = some "") →
      resolveToken opts env = "") ∧
    (∀ items mw, resolveToken opts env = "" → (mw.dirty && !opts.force) = false →
      snapshots items opts env mw =
        RunResult.ret 0 (mainOpeningTrace ++ buildPartTrace ++ noTokenTrace)) := by
  refine ⟨?_, ?_, ?_, ?_⟩
  · intro s hs hne
    simp [resolveToken, jsOr, hs, hne]
  · intro ho t htk htne
    rcases ho with h | h <;> simp [resolveToken, jsOr, h, htk, htne]
  · intro ho he
    rcases ho with h | h <;> rcases he with h2 | h2 <;>
      simp only [resolveToken, h, h2] <;> decide
  · intro items mw h hd
    exact snapshots_dryRun items opts env mw hd h

/-- C9 witness: each clause of the amended precedence at a concrete input,
including the dry-run consequence of an empty resolution. -/
theorem c9_token_precedence_witness :
    resolveToken { force := false, githubToken := some " tok ", branch := none } envNone =
      strTrim " tok " ∧
    resolveToken optsNone { circleBranch := none, snapshotBuildsGithubToken := some "etok" } =
      strTrim "etok" ∧
    resolveToken optsNone envNone = "" ∧
    snapshots [] optsNone envNone mwClean =
      RunResult.ret 0 (mainOpeningTrace ++ buildPartTrace ++ noTokenTrace) :=
  ⟨(c9_token_precedence { force := false, githubToken := some " tok ", branch := none }
      envNone).1 " tok " rfl (by decide),
   (c9_token_precedence optsNone
      { circleBranch := none, snapshotBuildsGithubToken := some "etok" }).2.1
      (Or.inl rfl) "etok" rfl (by decide),
   (c9_token_precedence optsNone envNone).2.2.1 (Or.inl rfl) (Or.inl rfl),
   (c9_token_precedence optsNone envNone).2.2.2 [] mwClean rfl rfl⟩

/-- C10: when `CIRCLE_BRANCH` is set to the empty string, the resolved
branch is the empty string — overriding both the explicit option and the
default — so the per-package checkout/create-branch step is skipped
entirely while the push commands receive the empty string as the branch
argument. -/
theorem c10_empty_circle_branch (opts : SnapshotsOptions) (env : Env)
    (hc : env.circleBranch = some "") :
    resolveBranch opts env = "" ∧
    ∀ (pkg : PackageInfo) (readme : Option String) (now message tok root : String),
      pkg.snapshot = true → tok ≠ "" →
      (∀ args cwd, Effect.execCmd "git" ("checkout" :: args) cwd ∉
        (publishSnapshot (allOkWorld readme now) pkg (resolveBranch opts env)
          message tok root).1) ∧
      Effect.execCmd "git" ["push", "origin", ""] (destPath root pkg.snapshotRepo) ∈
        (publishSnapshot (allOkWorld readme now) pkg (resolveBranch opts env)
          message tok root).1 ∧
      Effect.execCmd "git" ["push", "--tags", "origin", ""] (destPath root pkg.snapshotRepo) ∈
        (publishSnapshot (allOkWorld readme now) pkg (resolveBranch opts env)
          message tok root).1 := by
  have hb : resolveBranch opts env = "" := by simp [resolveBranch, hc]
  refine ⟨hb, ?_⟩
  intro pkg readme now message tok root hs ht
  rw [hb, publishSnapshot_allOk_noBranch pkg message tok root readme now hs ht]
  refine ⟨?_, ?_, ?_⟩
  · intro args cwd
    simp [allOkPubTraceNoBranch]
  · simp [allOkPubTraceNoBranch]
  · simp [allOkPubTraceNoBranch]

/-- C10 witness: the empty CI branch value at a concrete input. -/
theorem c10_empty_circle_branch_witness :
    resolveBranch { force := false, githubToken := none, branch := some "feature" }
      envEmptyCircle = "" ∧
    Effect.execCmd "git" ["push", "origin", ""] (destPath "/tmp/r" pkg0.snapshotRepo) ∈
      (publishSnapshot (allOkWorld none "D") pkg0
        (resolveBranch { force := false, githubToken := none, branch := some "feature" }
          envEmptyCircle) "m" "tok" "/tmp/r").1 :=
  ⟨(c10_empty_circle_branch _ envEmptyCircle rfl).1,
   ((c10_empty_circle_branch { force := false, githubToken := none, branch := some "feature" }
      envEmptyCircle rfl).2 pkg0 none "D" "m" "tok" "/tmp/r" rfl (by decide)).2.1⟩

/-- C2: with a dirty working tree and `force` not set, the run exits with
code 1 having performed exactly the status probe and one error log — in
particular no temporary directory was created and nothing was mutated; with
`force` set, the same dirty-tree run proceeds past the precondition check
(it never exits, and the temporary directory is created). -/
theorem c2_dirty_tree_guard (items : List (PackageInfo × PubWorld))
    (opts : SnapshotsOptions) (env : Env) (mw : MainWorld) (hd : mw.dirty = true) :
    (opts.force = false →
      snapshots items opts env mw = RunResult.exit 1
        [Effect.shellCmd "git status --porcelain",
         Effect.logError "You cannot run snapshots with local changes."] ∧
      ∀ p, Effect.mkTempDir p ∉ (snapshots items opts env mw).trace) ∧
    (opts.force = true →
      (∀ c t, snapshots items opts env mw ≠ RunResult.exit c t) ∧
      Effect.mkTempDir "angular-cli-publish-" ∈ (snapshots items opts env mw).trace) := by
  constructor
  · intro hf
    have he : snapshots items opts env mw = RunResult.exit 1
        [Effect.shellCmd "git status --porcelain",
         Effect.logError "You cannot run snapshots with local changes."] := by
      simp [snapshots, hd, hf]
    refine ⟨he, ?_⟩
    intro p
    rw [he]
    simp [RunResult.trace]
  · intro hf
    exact snapshots_no_exit items opts env mw (by simp [hd, hf])

/-- C2 witness: the guard at concrete inputs, one per arm. -/
theorem c2_dirty_tree_guard_witness :
    snapshots [] optsNone envNone mwDirty = RunResult.exit 1
      [Effect.shellCmd "git status --porcelain",
       Effect.logError "You cannot run snapshots with local changes."] ∧
    Effect.mkTempDir "angular-cli-publish-" ∈ (snapshots [] optsForce envNone mwDirty).trace :=
  ⟨((c2_dirty_tree_guard [] optsNone envNone mwDirty rfl).1 rfl).1,
   ((c2_dirty_tree_guard [] optsForce envNone mwDirty rfl).2 rfl).2⟩

/-- C3: with an empty resolved credential, a clean-tree run performs the
staging, build and help steps, logs the skip line, returns 0, and performs
no spawned command at all — no clone, no push and no global git identity
configuration. -/
theorem c3_no_token_dry_run (items : List (PackageInfo × PubWorld))
    (opts : SnapshotsOptions) (env : Env) (mw : MainWorld)
    (hd : mw.dirty = false) (ht : resolveToken opts env = "") :
    snapshots items opts env mw =
      RunResult.ret 0 (mainOpeningTrace ++ buildPartTrace ++ noTokenTrace) ∧
    Effect.buildStep ∈ (snapshots items opts env mw).trace ∧
    Effect.jsonHelpStep ∈ (snapshots items opts env mw).trace ∧
    Effect.logInfo "No token given, skipping actual publishing..." ∈
      (snapshots items opts env mw).trace ∧
    ∀ c a w, Effect.execCmd c a w ∉ (snapshots items opts env mw).trace := by
  have he := snapshots_dryRun items opts env mw (by simp [hd]) ht
  refine ⟨he, ?_, ?_, ?_, ?_⟩ <;> rw [he] <;>
    simp [RunResult.trace, mainOpeningTrace, buildPartTrace, noTokenTrace]

/-- C3 witness: the dry run at a concrete input. -/
theorem c3_no_token_dry_run_witness :
    snapshots [(pkg0, allOkWorld none "D")] optsNone envNone mwClean =
      RunResult.ret 0 (mainOpeningTrace ++ buildPartTrace ++ noTokenTrace) ∧
    ∀ c a w, Effect.execCmd c a w ∉
      (snapshots [(pkg0, allOkWorld none "D")] optsNone envNone mwClean).trace :=
  ⟨(c3_no_token_dry_run [(pkg0, allOkWorld none "D")] optsNone envNone mwClean rfl rfl).1,
   (c3_no_token_dry_run [(pkg0, allOkWorld none "D")] optsNone envNone mwClean rfl rfl).2.2.2.2⟩

/-- C5: for a package whose `snapshot` attribute is false, the per-package
sequence produces exactly one warning log — no command, copy or write
effect — and returns normally, and the loop then continues with the
remaining packages unchanged. -/
theorem c5_skip_non_snapshot (pw : PubWorld) (pkg : PackageInfo)
    (branch message tok root : String) (rest : List (PackageInfo × PubWorld))
    (hs : pkg.snapshot = false) :
    publishSnapshot pw pkg branch message tok root =
      ([Effect.logWarn ("Skipping " ++ pkg.name ++ ".")], true) ∧
    snapshotsLoop branch message tok root ((pkg, pw) :: rest) =
      (Effect.chdir root :: Effect.logWarn ("Skipping " ++ pkg.name ++ ".") ::
        (snapshotsLoop branch message tok root rest).1,
       (snapshotsLoop branch message tok root rest).2) := by
  constructor
  · simp [publishSnapshot, hs]
  · simp [snapshotsLoop, publishSnapshot, hs]

/-- C5 witness: a non-snapshot package at a concrete input. -/
theorem c5_skip_non_snapshot_witness :
    publishSnapshot (allOkWorld none "D") { pkg0 with snapshot := false } "main" "m" "tok" "/tmp/r" =
      ([Effect.logWarn ("Skipping " ++ ({ pkg0 with snapshot := false } : PackageInfo).name ++ ".")], true) :=
  (c5_skip_non_snapshot (allOkWorld none "D") { pkg0 with snapshot := false }
    "main" "m" "tok" "/tmp/r" [] rfl).1

/-- C6: with a non-empty resolved branch (and the surrounding operations
succeeding), a checkout of that branch is always attempted; the
create-branch command (`checkout -b`) runs if and only if the checkout
fails; and in both outcomes the sequence continues to completion. -/
theorem c6_checkout_or_create (pkg : PackageInfo) (branch message tok root : String)
    (readme : Option String) (now : String) (cf : Bool)
    (hs : pkg.snapshot = true) (hb : branch ≠ "") :
    (Effect.execCmd "git" ["checkout", branch] (destPath root pkg.snapshotRepo) ∈
      (publishSnapshot { allOkWorld readme now with checkoutFails := cf }
        pkg branch message tok root).1) ∧
    ((Effect.execCmd "git" ["checkout", "-b", branch] (destPath root pkg.snapshotRepo) ∈
      (publishSnapshot { allOkWorld readme now with checkoutFails := cf }
        pkg branch message tok root).1) ↔ cf = true) ∧
    (publishSnapshot { allOkWorld readme now with checkoutFails := cf }
      pkg branch message tok root).2 = true := by
  cases cf <;> by_cases ht : tok = "" <;>
    simp [publishSnapshot, pubSteps, branchSteps, allOkWorld, runSteps,
      mkCmdStep, mkFsStep, failLogEffects, hs, hb, ht]

/-- C6 witness: both checkout outcomes at a concrete input. -/
theorem c6_checkout_or_create_witness :
    ((Effect.execCmd "git" ["checkout", "-b", "main"] (destPath "/tmp/r" pkg0.snapshotRepo) ∈
      (publishSnapshot { allOkWorld none "D" with checkoutFails := true }
        pkg0 "main" "m" "tok" "/tmp/r").1) ↔ true = true) ∧
    (publishSnapshot { allOkWorld none "D" with checkoutFails := true }
      pkg0 "main" "m" "tok" "/tmp/r").2 = true :=
  ⟨(c6_checkout_or_create pkg0 "main" "m" "tok" "/tmp/r" none "D" true rfl (by decide)).2.1,
   (c6_checkout_or_create pkg0 "main" "m" "tok" "/tmp/r" none "D" true rfl (by decide)).2.2⟩

/-- C7: for a snapshot-enabled package with a credential present and every
operation succeeding, a one-package run returns 0 with a trace whose final
steps are, in this exact order: stage all changes (`add .`), commit with
the message derived from the latest upstream commit (the trimmed output of
the `git log` probe), tag with `snapshotHash`, push the branch to `origin`,
then push the tags to `origin`. -/
theorem c7_commit_tag_push_order (pkg : PackageInfo) (opts : SnapshotsOptions)
    (env : Env) (mw : MainWorld) (readme : Option String) (now : String)
    (hs : pkg.snapshot = true) (hd : mw.dirty = false)
    (hce : mw.configEmailFails = false) (hcn : mw.configNameFails = false)
    (hcp : mw.configPushFails = false)
    (ht : resolveToken opts env ≠ "") (hb : resolveBranch opts env ≠ "") :
    snapshots [(pkg, allOkWorld readme now)] opts env mw =
      RunResult.ret 0 (mainOpeningTrace ++ configOkTrace ++ buildPartTrace ++
        Effect.chdir mw.tmpRoot ::
          allOkPubTrace pkg (resolveBranch opts env) (strTrim mw.logMessageRaw)
            (resolveToken opts env) mw.tmpRoot readme now) ∧
    (snapshots [(pkg, allOkWorld readme now)] opts env mw).trace =
      (mainOpeningTrace ++ configOkTrace ++ buildPartTrace ++
        Effect.chdir mw.tmpRoot ::
          [Effect.logInfo ("Publishing " ++ pkg.name ++ " to repo " ++
             jsonStr pkg.snapshotRepo ++ "."),
           Effect.logDebug ("Temporary directory: " ++ mw.tmpRoot),
           Effect.execCmd "git" ["clone", cloneUrl (resolveToken opts env) pkg.snapshotRepo]
             mw.tmpRoot,
           Effect.execCmd "git" ["checkout", resolveBranch opts env]
             (destPath mw.tmpRoot pkg.snapshotRepo),
           Effect.execCmd "git" ["rm", "-rf", "./"] (destPath mw.tmpRoot pkg.snapshotRepo),
           Effect.copyDir pkg.dist (destPath mw.tmpRoot pkg.snapshotRepo),
           Effect.execCmd "git" ["config", "commit.gpgSign", "false"]
             (destPath mw.tmpRoot pkg.snapshotRepo),
           Effect.writeFile (destPath mw.tmpRoot pkg.snapshotRepo ++ "/README.md")
             (readmeContent pkg readme),
           Effect.writeFile (destPath mw.tmpRoot pkg.snapshotRepo ++ "/uniqueId") now]) ++
      [Effect.execCmd "git" ["add", "."] (destPath mw.tmpRoot pkg.snapshotRepo),
       Effect.execCmd "git" ["commit", "-a", "-m", strTrim mw.logMessageRaw]
         (destPath mw.tmpRoot pkg.snapshotRepo),
       Effect.execCmd "git" ["tag", pkg.snapshotHash] (destPath mw.tmpRoot pkg.snapshotRepo),
       Effect.execCmd "git" ["push", "origin", resolveBranch opts env]
         (destPath mw.tmpRoot pkg.snapshotRepo),
       Effect.execCmd "git" ["push", "--tags", "origin", resolveBranch opts env]
         (destPath mw.tmpRoot pkg.snapshotRepo)] := by
  have hp := publishSnapshot_allOk pkg (resolveBranch opts env) (strTrim mw.logMessageRaw)
    (resolveToken opts env) mw.tmpRoot readme now hs hb ht
  have he : snapshots [(pkg, allOkWorld readme now)] opts env mw =
      RunResult.ret 0 (mainOpeningTrace ++ configOkTrace ++ buildPartTrace ++
        Effect.chdir mw.tmpRoot ::
          allOkPubTrace pkg (resolveBranch opts env) (strTrim mw.logMessageRaw)
            (resolveToken opts env) mw.tmpRoot readme now) := by
    simp [snapshots, hd, ht, configPart, hce, hcn, hcp, runSteps, mkCmdStep,
      failLogEffects, snapshotsLoop, hp, configOkTrace]
  refine ⟨he, ?_⟩
  rw [he]
  simp [RunResult.trace, allOkPubTrace]

/-- C7 witness: the full ordered trace at a concrete input. -/
theorem c7_commit_tag_push_order_witness :
    snapshots [(pkg0, allOkWorld none "D")] optsTok envNone mwClean =
      RunResult.ret 0 (mainOpeningTrace ++ configOkTrace ++ buildPartTrace ++
        Effect.chdir mwClean.tmpRoot ::
          allOkPubTrace pkg0 (resolveBranch optsTok envNone) (strTrim mwClean.logMessageRaw)
            (resolveToken optsTok envNone) mwClean.tmpRoot none "D") :=
  (c7_commit_tag_push_order pkg0 optsTok envNone mwClean none "D"
    rfl rfl rfl rfl rfl (by decide) (by decide)).1

/-- C8: publishing twice to the same mirror prepends exactly one README
header block per run — the second run writes the header followed by the
entire content the first run wrote — and the `uniqueId` file written in the
second run (the timestamp of that run) differs from the first whenever the
two runs observe different clock strings, independently of the copied build
output, so every snapshot commit has a non-empty diff. -/
theorem c8_readme_header_and_unique_id (pkg : PackageInfo) (r0 : String)
    (now1 now2 branch message tok root : String)
    (hs : pkg.snapshot = true) (hb : branch ≠ "") (ht : tok ≠ "")
    (hn : now1 ≠ now2) :
    (Effect.writeFile (destPath root pkg.snapshotRepo ++ "/README.md")
        (readmeHeaderFn pkg ++ r0) ∈
      (publishSnapshot (allOkWorld (some r0) now1) pkg branch message tok root).1) ∧
    (Effect.writeFile (destPath root pkg.snapshotRepo ++ "/README.md")
        (readmeHeaderFn pkg ++ (readmeHeaderFn pkg ++ r0)) ∈
      (publishSnapshot (allOkWorld (some (readmeContent pkg (some r0))) now2)
        pkg branch message tok root).1) ∧
    (Effect.writeFile (destPath root pkg.snapshotRepo ++ "/uniqueId") now1 ∈
      (publishSnapshot (allOkWorld (some r0) now1) pkg branch message tok root).1) ∧
    (Effect.writeFile (destPath root pkg.snapshotRepo ++ "/uniqueId") now2 ∈
      (publishSnapshot (allOkWorld (some (readmeContent pkg (some r0))) now2)
        pkg branch message tok root).1) ∧
    now1 ≠ now2 := by
  rw [publishSnapshot_allOk pkg branch message tok root (some r0) now1 hs hb ht,
    publishSnapshot_allOk pkg branch message tok root
      (some (readmeContent pkg (some r0))) now2 hs hb ht]
  refine ⟨?_, ?_, ?_, ?_, hn⟩ <;> simp [allOkPubTrace, readmeContent]

/-- C8 witness: two runs at concrete inputs with distinct timestamps. -/
theorem c8_readme_header_and_unique_id_witness :
    (Effect.writeFile (destPath "/tmp/r" pkg0.snapshotRepo ++ "/README.md")
        (readmeHeaderFn pkg0 ++ "OLD") ∈
      (publishSnapshot (allOkWorld (some "OLD") "D1") pkg0 "main" "m" "tok" "/tmp/r").1) ∧
    (Effect.writeFile (destPath "/tmp/r" pkg0.snapshotRepo ++ "/README.md")
        (readmeHeaderFn pkg0 ++ (readmeHeaderFn pkg0 ++ "OLD")) ∈
      (publishSnapshot (allOkWorld (some (readmeContent pkg0 (some "OLD"))) "D2")
        pkg0 "main" "m" "tok" "/tmp/r").1) ∧
    ("D1" : String) ≠ "D2" :=
  ⟨(c8_readme_header_and_unique_id pkg0 "OLD" "D1" "D2" "main" "m" "tok" "/tmp/r"
      rfl (by decide) (by decide) (by decide)).1,
   (c8_readme_header_and_unique_id pkg0 "OLD" "D1" "D2" "main" "m" "tok" "/tmp/r"
      rfl (by decide) (by decide) (by decide)).2.1,
   by decide⟩

/-- C4 counterexample: with every operation succeeding except the recursive
copy, the per-package sequence aborts (as the claim says) but emits no
failed-command log line at all — the copy step is a raw filesystem
operation, not an `_exec` command, so the claimed "logs the failed command
with its arguments" is false for it. -/
theorem c4_counterexample :
    (publishSnapshot { allOkWorld none "D" with copyFails := true }
      pkg0 "main" "m" "tok" "/tmp/r").2 = false ∧
    hasCmdFailLog (publishSnapshot { allOkWorld none "D" with copyFails := true }
      pkg0 "main" "m" "tok" "/tmp/r").1 = false := by
  refine ⟨by decide, by decide⟩

/-- C4 (amended): within the per-package sequence (snapshot-enabled
package, non-empty branch and token, surrounding operations succeeding
unless stated), a failure of the tracked-file-removal step is caught and
execution completes as if it succeeded; a failure of any other spawned git
command (clone, config, add, commit, tag, push) logs the failed command
with its arguments and aborts immediately, the later steps never running;
a failure of a raw filesystem step (copy, README write, uniqueId write)
aborts immediately without any failed-command log; and an aborted package
stops the loop so that remaining packages are not processed. -/
theorem c4_error_policy (pkg : PackageInfo) (branch message tok root : String)
    (readme : Option String) (now : String)
    (hs : pkg.snapshot = true) (hb : branch ≠ "") (ht : tok ≠ "") :
    ((publishSnapshot { allOkWorld readme now with rmFails := true }
        pkg branch message tok root).2 = true ∧
      Effect.execCmd "git" ["push", "--tags", "origin", branch]
          (destPath root pkg.snapshotRepo) ∈
        (publishSnapshot { allOkWorld readme now with rmFails := true }
          pkg branch message tok root).1) ∧
    (publishSnapshot { allOkWorld readme now with cloneFails := true }
        pkg branch message tok root =
      ([Effect.logInfo ("Publishing " ++ pkg.name ++ " to repo " ++
          jsonStr pkg.snapshotRepo ++ "."),
        Effect.logDebug ("Temporary directory: " ++ root),
        Effect.execCmd "git" ["clone", cloneUrl tok pkg.snapshotRepo] root,
        Effect.logError (cmdFailedMessage "git"
          ["clone", cloneUrl tok pkg.snapshotRepo])], false)) ∧
    (publishSnapshot { allOkWorld readme now with copyFails := true }
        pkg branch message tok root =
      ([Effect.logInfo ("Publishing " ++ pkg.name ++ " to repo " ++
          jsonStr pkg.snapshotRepo ++ "."),
        Effect.logDebug ("Temporary directory: " ++ root),
        Effect.execCmd "git" ["clone", cloneUrl tok pkg.snapshotRepo] root,
        Effect.execCmd "git" ["checkout", branch] (destPath root pkg.snapshotRepo),
        Effect.execCmd "git" ["rm", "-rf", "./"] (destPath root pkg.snapshotRepo),
        Effect.copyDir pkg.dist (destPath root pkg.snapshotRepo)], false) ∧
      hasCmdFailLog (publishSnapshot { allOkWorld readme now with copyFails := true }
        pkg branch message tok root).1 = false) ∧
    ((publishSnapshot { allOkWorld readme now with configFails := true }
        pkg branch message tok root).2 = false ∧
      Effect.logError (cmdFailedMessage "git" ["config", "commit.gpgSign", "false"]) ∈
        (publishSnapshot { allOkWorld readme now with configFails := true }
          pkg branch message tok root).1 ∧
      ∀ p c, Effect.writeFile p c ∉
        (publishSnapshot { allOkWorld readme now with configFails := true }
          pkg branch message tok root).1) ∧
    ((publishSnapshot { allOkWorld readme now with readmeWriteFails := true }
        pkg branch message tok root).2 = false ∧
      hasCmdFailLog (publishSnapshot { allOkWorld readme now with readmeWriteFails := true }
        pkg branch message tok root).1 = false ∧
      Effect.execCmd "git" ["add", "."] (destPath root pkg.snapshotRepo) ∉
        (publishSnapshot { allOkWorld readme now with readmeWriteFails := true }
          pkg branch message tok root).1) ∧
    ((publishSnapshot { allOkWorld readme now with uniqueWriteFails := true }
        pkg branch message tok root).2 = false ∧
      hasCmdFailLog (publishSnapshot { allOkWorld readme now with uniqueWriteFails := true }
        pkg branch message tok root).1 = false) ∧
    ((publishSnapshot { allOkWorld readme now with addFails := true }
        pkg branch message tok root).2 = false ∧
      Effect.logError (cmdFailedMessage "git" ["add", "."]) ∈
        (publishSnapshot { allOkWorld readme now with addFails := true }
          pkg branch message tok root).1 ∧
      Effect.execCmd "git" ["commit", "-a", "-m", message] (destPath root pkg.snapshotRepo) ∉
        (publishSnapshot { allOkWorld readme now with addFails := true }
          pkg branch message tok root).1) ∧
    ((publishSnapshot { allOkWorld readme now with commitFails := true }
        pkg branch message tok root).2 = false ∧
      Effect.logError (cmdFailedMessage "git" ["commit", "-a", "-m", message]) ∈
        (publishSnapshot { allOkWorld readme now with commitFails := true }
          pkg branch message tok root).1 ∧
      Effect.execCmd "git" ["tag", pkg.snapshotHash] (destPath root pkg.snapshotRepo) ∉
        (publishSnapshot { allOkWorld readme now with commitFails := true }
          pkg branch message tok root).1) ∧
    ((publishSnapshot { allOkWorld readme now with tagFails := true }
        pkg branch message tok root).2 = false ∧
      Effect.logError (cmdFailedMessage "git" ["tag", pkg.snapshotHash]) ∈
        (publishSnapshot { allOkWorld readme now with tagFails := true }
          pkg branch message tok root).1 ∧
      Effect.execCmd "git" ["push", "origin", branch] (destPath root pkg.snapshotRepo) ∉
        (publishSnapshot { allOkWorld readme now with tagFails := true }
          pkg branch message tok root).1) ∧
    ((publishSnapshot { allOkWorld readme now with pushFails := true }
        pkg branch message tok root).2 = false ∧
      Effect.logError (cmdFailedMessage "git" ["push", "origin", branch]) ∈
        (publishSnapshot { allOkWorld readme now with pushFails := true }
          pkg branch message tok root).1 ∧
      Effect.execCmd "git" ["push", "--tags", "origin", branch]
          (destPath root pkg.snapshotRepo) ∉
        (publishSnapshot { allOkWorld readme now with pushFails := true }
          pkg branch message tok root).1) ∧
    (∀ pw rest, (publishSnapshot pw pkg branch message tok root).2 = false →
      snapshotsLoop branch message tok root ((pkg, pw) :: rest) =
        (Effect.chdir root :: (publishSnapshot pw pkg branch message tok root).1,
         false)) := by
  refine ⟨?_, ?_, ?_, ?_, ?_, ?_, ?_, ?_, ?_, ?_, ?_⟩
  · constructor <;>
      simp [publishSnapshot, pubSteps, branchSteps, allOkWorld, runSteps,
        mkCmdStep, mkFsStep, failLogEffects, hs, hb, ht]
  · simp [publishSnapshot, pubSteps, branchSteps, allOkWorld, runSteps,
      mkCmdStep, mkFsStep, failLogEffects, hs, hb, ht]
  · constructor <;>
      simp [publishSnapshot, pubSteps, branchSteps, allOkWorld, runSteps,
        mkCmdStep, mkFsStep, failLogEffects, hasCmdFailLog, hs, hb, ht]
  · refine ⟨?_, ?_, ?_⟩
    · simp [publishSnapshot, pubSteps, branchSteps, allOkWorld, runSteps,
        mkCmdStep, mkFsStep, failLogEffects, hs, hb, ht]
    · simp [publishSnapshot, pubSteps, branchSteps, allOkWorld, runSteps,
        mkCmdStep, mkFsStep, failLogEffects, hs, hb, ht]
    · intro p c
      simp [publishSnapshot, pubSteps, branchSteps, allOkWorld, runSteps,
        mkCmdStep, mkFsStep, failLogEffects, hs, hb, ht]
  · refine ⟨?_, ?_, ?_⟩ <;>
      simp [publishSnapshot, pubSteps, branchSteps, allOkWorld, runSteps,
        mkCmdStep, mkFsStep, failLogEffects, hasCmdFailLog, hs, hb, ht]
  · constructor <;>
      simp [publishSnapshot, pubSteps, branchSteps, allOkWorld, runSteps,
        mkCmdStep, mkFsStep, failLogEffects, hasCmdFailLog, hs, hb, ht]
  · refine ⟨?_, ?_, ?_⟩ <;>
      simp [publishSnapshot, pubSteps, branchSteps, allOkWorld, runSteps,
        mkCmdStep, mkFsStep, failLogEffects, hs, hb, ht]
  · refine ⟨?_, ?_, ?_⟩ <;>
      simp [publishSnapshot, pubSteps, branchSteps, allOkWorld, runSteps,
        mkCmdStep, mkFsStep, failLogEffects, hs, hb, ht]
  · refine ⟨?_, ?_, ?_⟩ <;>
      simp [publishSnapshot, pubSteps, branchSteps, allOkWorld, runSteps,
        mkCmdStep, mkFsStep, failLogEffects, hs, hb, ht]
  · refine ⟨?_, ?_, ?_⟩ <;>
      simp [publishSnapshot, pubSteps, branchSteps, allOkWorld, runSteps,
        mkCmdStep, mkFsStep, failLogEffects, hs, hb, ht]
  · intro pw rest hpw
    simp [snapshotsLoop, hpw]

/-- C4 witness: the tolerated removal failure and the loop cutoff at a
concrete input. -/
theorem c4_error_policy_witness :
    (publishSnapshot { allOkWorld none "D" with rmFails := true }
      pkg0 "main" "m" "tok" "/tmp/r").2 = true ∧
    snapshotsLoop "main" "m" "tok" "/tmp/r"
        [(pkg0, { allOkWorld none "D" with cloneFails := true }), (pkg0, allOkWorld none "D")] =
      (Effect.chdir "/tmp/r" ::
        (publishSnapshot { allOkWorld none "D" with cloneFails := true }
          pkg0 "main" "m" "tok" "/tmp/r").1, false) :=
  ⟨((c4_error_policy pkg0 "main" "m" "tok" "/tmp/r" none "D"
      rfl (by decide) (by decide)).1).1,
   (c4_error_policy pkg0 "main" "m" "tok" "/tmp/r" none "D"
      rfl (by decide) (by decide)).2.2.2.2.2.2.2.2.2.2
     { allOkWorld none "D" with cloneFails := true } [(pkg0, allOkWorld none "D")]
     (by decide)⟩
